import Mathlib

/-!
Verification of the prediction pipeline of `pwn_fantasy_football`.

The development shallowly embeds the prediction pipeline
(`src/pwn_fantasy_football/prediction/fantasy_calculator.py` and
`src/pwn_fantasy_football/prediction/predictor.py`) into Lean:

* dataframes become lists of rows; a polars column that may hold nulls is an
  `Option` value per row, and table-level column presence is an explicit list
  of column names (polars checks `"c" in df.columns` at table granularity);
* Python/polars floats become exact rationals `ℚ` (the claims under study
  concern exact structural facts, not rounding of binary floats);
* polars arithmetic on expressions propagates nulls (`null * w = null`,
  `null + x = null`), modelled by `optAdd` / `Option.map`;
* Python `round` (round-half-to-even) becomes `roundHalfEven`;
* a Python function that may return `None` becomes an `Option`-valued
  function, and a call that may raise becomes an `Except`-valued outcome.
-/

namespace FantasyFootball

/-! ## Scoring engine (`fantasy_calculator.py`)

`FantasyPointCalculator.calculate_fantasy_points` receives a dataframe and a
scoring map `self.scoring`; for each of ten statistical categories it emits a
per-category column: `column * self.scoring.get(cat, default)` when the
category column is present in the input, a literal `0.0` column otherwise.
The `fantasy_points` column is the sum of the ten per-category columns.
-/

/-- A row of a dataframe: cells indexed by column name, possibly null. -/
abbrev Row := List (String × Option ℚ)

/-- The cell of `row` in column `cat`: a column key absent from the row list
or bound to `none` is a null cell. -/
def cell (row : Row) (cat : String) : Option ℚ := (row.lookup cat).join

/-- The ten scoring categories with the per-use-site default weights that
`calculate_fantasy_points` passes to `self.scoring.get(cat, default)`. -/
def useSiteDefaults : List (String × ℚ) :=
  [("passing_yards", 1/25), ("passing_tds", 4), ("interceptions", -2),
   ("rushing_yards", 1/10), ("rushing_tds", 6), ("receptions", 1/2),
   ("receiving_yards", 1/10), ("receiving_tds", 6), ("fumbles_lost", -2),
   ("two_point_conversions", 2)]

/-- The standard scoring map installed by `FantasyPointCalculator.__init__`
when `scoring_config is None`. -/
def standardScoring : List (String × ℚ) :=
  [("passing_yards", 1/25), ("passing_tds", 4), ("interceptions", -2),
   ("rushing_yards", 1/10), ("rushing_tds", 6), ("receptions", 1/2),
   ("receiving_yards", 1/10), ("receiving_tds", 6), ("fumbles_lost", -2),
   ("two_point_conversions", 2)]

/-- Dictionary lookup with a default, `self.scoring.get(cat, dflt)`. -/
def getWeight (scoring : List (String × ℚ)) (cat : String) (dflt : ℚ) : ℚ :=
  (scoring.lookup cat).getD dflt

/-- The per-category column of `calculate_fantasy_points` for one row:
`pl.col(cat) * weight` when `cat` is among the input's columns (nulls
propagate through the product), the literal `0.0` otherwise. -/
def categoryFp (scoring : List (String × ℚ)) (cols : List String) (row : Row)
    (cat : String) (dflt : ℚ) : Option ℚ :=
  if cat ∈ cols then (cell row cat).map (fun v => v * getWeight scoring cat dflt)
  else some 0

/-- polars addition of two possibly-null cells: null propagates. -/
def optAdd : Option ℚ → Option ℚ → Option ℚ
  | some a, some b => some (a + b)
  | _, _ => none

/-- The `fantasy_points` cell of one row: the sum of the ten per-category
cells (the initial `pl.lit(0.0)` column is overwritten by this sum). -/
def fantasyPoints (scoring : List (String × ℚ)) (cols : List String) (row : Row) : Option ℚ :=
  (useSiteDefaults.map (fun cd => categoryFp scoring cols row cd.1 cd.2)).foldr optAdd (some 0)

/-- Spec-side weighted sum: each category present in the input contributes
its (non-null) value times the active weight, an absent category contributes
zero. -/
def specWeightedSum (scoring : List (String × ℚ)) (cols : List String) (row : Row) : ℚ :=
  (useSiteDefaults.map (fun cd =>
    if cd.1 ∈ cols then ((cell row cd.1).getD 0) * getWeight scoring cd.1 cd.2 else 0)).sum

/-- Every scoring category that is present as a column has a non-null cell
in this row. -/
def presentCellsNonNull (cols : List String) (row : Row) : Prop :=
  ∀ cd ∈ useSiteDefaults, cd.1 ∈ cols → (cell row cd.1).isSome

instance (cols : List String) (row : Row) : Decidable (presentCellsNonNull cols row) := by
  unfold presentCellsNonNull; infer_instance

lemma foldr_optAdd_eq_sum (scoring : List (String × ℚ)) (cols : List String) (row : Row)
    (L : List (String × ℚ))
    (h : ∀ cd ∈ L, cd.1 ∈ cols → (cell row cd.1).isSome) :
    (L.map (fun cd => categoryFp scoring cols row cd.1 cd.2)).foldr optAdd (some 0) =
      some ((L.map (fun cd =>
        if cd.1 ∈ cols then ((cell row cd.1).getD 0) * getWeight scoring cd.1 cd.2 else 0)).sum) := by
  induction L with
  | nil => simp [optAdd]
  | cons cd rest ih =>
    have hrest : ∀ cd ∈ rest, cd.1 ∈ cols → (cell row cd.1).isSome := by
      intro x hx; exact h x (List.mem_cons_of_mem _ hx)
    simp only [List.map_cons, List.foldr_cons, List.sum_cons, ih hrest]
    by_cases hc : cd.1 ∈ cols
    · have hs : (cell row cd.1).isSome := h cd (List.mem_cons_self _ _) hc
      obtain ⟨v, hv⟩ := Option.isSome_iff_exists.mp hs
      simp [categoryFp, hc, hv, optAdd]
    · simp [categoryFp, hc, optAdd]

/-! ## Seasonal aggregator (`predictor.py`, `get_player_seasonal_stats`)

Seasonal rows are grouped by `(player_id, player_name, season, position)`;
`fp_std` is the sample standard deviation (`pl.std`, `ddof = 1`) of the
group's `fantasy_points`, null when the group has fewer than 2 rows, and
`consistency_score` is `1.0 / (fp_std + 1.0)` with the null/NaN fallback
`0.5`.  The standard deviation itself is irrational in general, so the
development carries the sample variance exactly in `ℚ` and characterises the
standard deviation `σ` of a group by `0 ≤ σ ∧ σ² = variance`.
-/

/-- One game-level row, after `load_player_stats` has normalised `position`
to a string and `calculate_fantasy_points` has attached `fantasy_points`. -/
structure GameRow where
  playerId : String
  playerName : String
  season : ℤ
  position : String
  fantasyPoints : ℚ
deriving DecidableEq, Repr

/-- The `group_by` key of `get_player_seasonal_stats`. -/
def rowKey (g : GameRow) : String × String × ℤ × String :=
  (g.playerId, g.playerName, g.season, g.position)

/-- The distinct group keys of the seasonal aggregation: one seasonal summary
row per distinct `(player_id, player_name, season, position)` (polars leaves
the relative order of groups unspecified; order never matters below). -/
def seasonalKeys (df : List GameRow) : List (String × String × ℤ × String) :=
  (df.map rowKey).dedup

/-- Mean of a list of rationals (`xs.sum / xs.length`). -/
def listMean (xs : List ℚ) : ℚ := xs.sum / xs.length

/-- Sample variance (`ddof = 1`, the polars `std` default squared): null for
groups of fewer than 2 rows. -/
def sampleVariance (xs : List ℚ) : Option ℚ :=
  if xs.length < 2 then none
  else some ((xs.map (fun x => (x - listMean xs) ^ 2)).sum / ((xs.length : ℚ) - 1))

/-- Statement that `σ` is the sample standard deviation of the group values `xs`. -/
def isFpStdOf (xs : List ℚ) (σ : ℚ) : Prop :=
  0 ≤ σ ∧ sampleVariance xs = some (σ ^ 2)

/-- Derivation of `consistency_score` from the (possibly null) `fp_std` column:
`pl.when(is_null or is_nan).then(0.5).otherwise(1.0 / (fp_std + 1.0))`;
`none` stands for a null or NaN standard deviation. -/
def consistencyScore (fpStd : Option ℚ) : ℚ :=
  match fpStd with
  | none => 1/2
  | some s => 1 / (s + 1)

/-! ## Trend estimator (`predictor.py`, `calculate_trend`) -/

/-- One seasonal summary row, with the fields the predictor reads.
`avgFp` and `consistency` are nullable columns (`avg_fp_per_game`,
`consistency_score`); `none` stands for null or NaN. -/
structure SeasonRow where
  playerId : String
  playerName : String
  season : ℤ
  position : String
  avgFp : Option ℚ
  consistency : Option ℚ
deriving DecidableEq, Repr

/-- Insert a seasonal row into a season-sorted list (rows with equal seasons
keep their relative order, matching a stable sort). -/
def insertBySeason (r : SeasonRow) : List SeasonRow → List SeasonRow
  | [] => [r]
  | x :: xs => if r.season < x.season then r :: x :: xs else x :: insertBySeason r xs

/-- Insertion sort by season, modelling `player_data.sort("season")`. -/
def sortBySeason : List SeasonRow → List SeasonRow
  | [] => []
  | x :: xs => insertBySeason x (sortBySeason xs)

/-- The rows of the seasonal dataframe belonging to one player
(`seasonal_df.filter(pl.col("player_id") == player_id)`). -/
def playerRows (seasonalDf : List SeasonRow) (pid : String) : List SeasonRow :=
  seasonalDf.filter (fun r => r.playerId == pid)

/-- The valid `(season, avg_fp)` pairs of `calculate_trend`: the player's
rows sorted by season, null/NaN `avg_fp_per_game` entries discarded. -/
def trendValidPairs (seasonalDf : List SeasonRow) (pid : String) : List (ℚ × ℚ) :=
  (sortBySeason (playerRows seasonalDf pid)).filterMap
    (fun r => r.avgFp.map (fun f => ((r.season : ℚ), f)))

/-- The denominator `n * Σx² - (Σx)²` of the closed-form slope. -/
def olsDenom (pairs : List (ℚ × ℚ)) : ℚ :=
  (pairs.length : ℚ) * (pairs.map (fun p => p.1 * p.1)).sum -
    (pairs.map Prod.fst).sum * (pairs.map Prod.fst).sum

/-- The closed-form two-variable ordinary-least-squares slope
`(n Σxy - Σx Σy) / (n Σx² - (Σx)²)`. -/
def olsSlope (pairs : List (ℚ × ℚ)) : ℚ :=
  ((pairs.length : ℚ) * (pairs.map (fun p => p.1 * p.2)).sum -
    (pairs.map Prod.fst).sum * (pairs.map Prod.snd).sum) / olsDenom pairs

/-- Translation of `FantasyPredictor.calculate_trend`: filter to the player, return `0.0`
for fewer than 2 rows, sort by season, discard null/NaN `avg_fp_per_game`,
return `0.0` for fewer than 2 valid pairs or a zero denominator, otherwise
the closed-form slope. -/
def calculateTrend (seasonalDf : List SeasonRow) (pid : String) : ℚ :=
  if (playerRows seasonalDf pid).length < 2 then 0
  else
    let valid := trendValidPairs seasonalDf pid
    if valid.length < 2 then 0
    else if olsDenom valid = 0 then 0
    else olsSlope valid

/-! ## Season predictor (`predictor.py`, `predict_player_2026`) -/

/-- Round-half-to-even to an integer (Python `round` on an exact value). -/
def roundHalfEven (x : ℚ) : ℤ :=
  let f := ⌊x⌋
  let r := x - f
  if r < 1/2 then f
  else if 1/2 < r then f + 1
  else if Even f then f else f + 1

/-- Python `round(x, d)` on an exact value. -/
def roundTo (d : ℕ) (x : ℚ) : ℚ := (roundHalfEven (x * 10 ^ d) : ℚ) / 10 ^ d

/-- The prediction weights of `predict_player_2026`:
`weights = [1.0 + (i * 0.3) for i in range(n)]` followed by
`weights.reverse()`. -/
def predictionWeights (n : ℕ) : List ℚ :=
  ((List.range n).map (fun i => 1 + (i : ℚ) * (3/10))).reverse

/-- The blended average
`weighted_avg = sum(f * w for f, w in zip(recent_avg_fp, weights)) / sum(weights)`;
the i-th valid entry (in dataframe row order) is paired with the i-th
element of the reversed weight list. -/
def weightedAvg (fps : List ℚ) : ℚ :=
  (List.zipWith (fun f w => f * w) fps (predictionWeights fps.length)).sum /
    (predictionWeights fps.length).sum

/-- The lookback filter of `predict_player_2026`:
`player_data.filter(pl.col("season") >= self.target_season - 3)`. -/
def recentRows (target : ℤ) (playerData : List SeasonRow) : List SeasonRow :=
  playerData.filter (fun r => decide (target - 3 ≤ r.season))

/-- The valid `(season, avg_fp)` entries of `predict_player_2026`: the rows
of the lookback window whose `avg_fp_per_game` is neither null nor NaN. -/
def validAvgPairs (rows : List SeasonRow) : List (ℤ × ℚ) :=
  rows.filterMap (fun r => r.avgFp.map (fun f => (r.season, f)))

/-- The prediction-relevant configuration of `FantasyPredictor` with the
use-site defaults (`trend_weight` 0.3, `consistency_weight` 0.2,
`min_seasons_played` 2) already resolved. -/
structure PredictorConfig where
  targetSeason : ℤ
  trendWeight : ℚ := 3/10
  consistencyWeight : ℚ := 1/5
  minSeasonsPlayed : ℕ := 2
deriving DecidableEq, Repr

/-- The dictionary returned by `predict_player_2026`. -/
structure Prediction where
  playerId : String
  playerName : String
  position : String
  predictedAvgFpPerGame : ℚ
  predictedSeasonFp : ℚ
  recentAvgFp : ℚ
  trend : ℚ
  consistencyScore : ℚ
  seasonsAnalyzed : ℕ
  lastSeason : ℤ
deriving DecidableEq, Repr

/-- Translation of `FantasyPredictor.predict_player_2026`, clause by clause:
empty player data, empty lookback window, or no valid (non-null)
`avg_fp_per_game` entry each yield `none`; otherwise the reversed-weight
average, the trend adjustment over the full history and the consistency
bonus are combined, floored at 0, and projected to a 17-game season. -/
def predictPlayer (cfg : PredictorConfig) (seasonalDf : List SeasonRow) (pid : String) :
    Option Prediction :=
  match playerRows seasonalDf pid with
  | [] => none
  | firstRow :: rest =>
    let recentData := recentRows cfg.targetSeason (firstRow :: rest)
    if recentData.isEmpty then none
    else
      let valid := validAvgPairs recentData
      if valid.isEmpty then none
      else
        let fps := valid.map Prod.snd
        let wavg := weightedAvg fps
        let trend := calculateTrend seasonalDf pid
        let trendAdj := trend * cfg.trendWeight
        let cs := recentData.filterMap (fun r => r.consistency)
        let consistency := if cs.isEmpty then 1/2 else cs.sum / (cs.length : ℚ)
        let bonus := (consistency - 1/2) * cfg.consistencyWeight
        let predictedFp := max 0 (wavg + trendAdj + bonus)
        let presentAvg := recentData.filterMap (fun r => r.avgFp)
        some {
          playerId := pid
          playerName := firstRow.playerName
          position := firstRow.position
          predictedAvgFpPerGame := roundTo 2 predictedFp
          predictedSeasonFp := roundTo 2 (predictedFp * 17)
          recentAvgFp := roundTo 2 (presentAvg.sum / (presentAvg.length : ℚ))
          trend := roundTo 3 trend
          consistencyScore := roundTo 3 consistency
          seasonsAnalyzed := recentData.length
          lastSeason := ((recentData.map (fun r => r.season)).max?).getD 0 }

/-! ## Prediction orchestrator (`predictor.py`, `predict_all_players`) -/

/-- The number of seasonal summary rows a player contributes: the grouped
`player_season_counts` entry of `predict_all_players` (one seasonal row per
distinct `(player_id, player_name, season, position)` game-row key). -/
def seasonalRowCountByPlayer (df : List GameRow) (pid : String) : ℕ :=
  ((seasonalKeys df).filter (fun k => k.1 == pid)).length

/-- The number of distinct seasons for which a player has a seasonal
summary. -/
def distinctSeasonsByPlayer (df : List GameRow) (pid : String) : ℕ :=
  (((seasonalKeys df).filter (fun k => k.1 == pid)).map (fun k => k.2.2.1)).dedup.length

/-- The eligible players of `predict_all_players` (before position
filtering): those whose seasonal row count reaches `min_seasons_played`. -/
def eligibleFromGames (df : List GameRow) (minSeasons : ℕ) : List String :=
  (((seasonalKeys df).map (fun k => k.1)).dedup).filter
    (fun p => minSeasons ≤ seasonalRowCountByPlayer df p)

/-- The per-player loop of `predict_all_players`: each eligible player's
`predict_player_2026` call either raises (`Except.error`, caught by the
`try/except` and skipped), returns `None` (falsy, skipped) or returns a
prediction (appended). -/
def collectPredictions : List (Except String (Option Prediction)) → List Prediction
  | [] => []
  | Except.error _ :: rest => collectPredictions rest
  | Except.ok none :: rest => collectPredictions rest
  | Except.ok (some p) :: rest => p :: collectPredictions rest

/-- Insert into a list sorted descending by `predicted_season_fp`. -/
def insertByFpDesc (p : Prediction) : List Prediction → List Prediction
  | [] => [p]
  | q :: qs =>
    if q.predictedSeasonFp < p.predictedSeasonFp then p :: q :: qs
    else q :: insertByFpDesc p qs

/-- One concrete realisation of
`predictions_df.sort("predicted_season_fp", descending=True)` (insertion
sort; polars pins down only the `polarsSortDesc` contract below). -/
def sortPredictions : List Prediction → List Prediction
  | [] => []
  | p :: ps => insertByFpDesc p (sortPredictions ps)

/-- Sorted descending by `predicted_season_fp`. -/
def sortedByFpDesc (l : List Prediction) : Prop :=
  List.Pairwise (fun a b => b.predictedSeasonFp ≤ a.predictedSeasonFp) l

/-- The contract of `DataFrame.sort("predicted_season_fp", descending=True)`:
the output is a permutation of the input sorted descending on the key.  The
call site leaves `maintain_order` at its default `False`, so polars does not
promise anything further about the relative order of equal keys. -/
def polarsSortDesc (input output : List Prediction) : Prop :=
  output.Perm input ∧ sortedByFpDesc output

/-- Rows with equal `predicted_season_fp` retain their relative pre-sort
order (the characteristic property of a stable sort). -/
def tiesPreserved (input output : List Prediction) : Prop :=
  ∀ v : ℚ, output.filter (fun p => p.predictedSeasonFp == v) =
    input.filter (fun p => p.predictedSeasonFp == v)

/-- The tail of `predict_all_players`: collect the per-player outcomes,
raise `ValueError` when no prediction was generated, otherwise sort by
predicted season FP descending. -/
def predictAllPlayersResult (outcomes : List (Except String (Option Prediction))) :
    Except String (List Prediction) :=
  let ps := collectPredictions outcomes
  if ps.isEmpty then Except.error "No predictions generated. Check data and filters."
  else Except.ok (sortPredictions ps)

/-! ## Persistence (`predictor.py`, `save_predictions`) -/

/-- The writer `save_predictions` dispatches to. -/
inductive SaveAction where
  | writeParquet
  | writeCsv
  | writeJson
deriving DecidableEq, Repr

/-- Translation of `FantasyPredictor.save_predictions`, reduced to its control flow: the
output file name is `predictions_2026.{format}` and the writer is chosen by
the if/elif/else chain — every format other than `parquet` and `csv` falls
through to `write_json`.  Every branch writes a file; none raises. -/
def savePredictions (format : String) : String × SaveAction :=
  ("predictions_2026." ++ format,
    if format == "parquet" then SaveAction.writeParquet
    else if format == "csv" then SaveAction.writeCsv
    else SaveAction.writeJson)

/-! ## Theorems: scoring engine -/

/-- C3 (amended): for every scoring map, input schema and row all of whose
present scoring-category cells are non-null, `fantasy_points` equals the
weighted sum over the categories present in the input under the active
weight map; a category absent from the input contributes exactly zero and
raises no error.  (A null cell in a present category column, by contrast,
null-propagates — see the counterexample.) -/
theorem fantasyPoints_eq_weighted_sum (scoring : List (String × ℚ)) (cols : List String)
    (row : Row) (h : presentCellsNonNull cols row) :
    fantasyPoints scoring cols row = some (specWeightedSum scoring cols row) :=
  foldr_optAdd_eq_sum scoring cols row useSiteDefaults h

theorem fantasyPoints_eq_weighted_sum_witness :
    presentCellsNonNull ["receptions"] [("receptions", some 8)] ∧
    fantasyPoints standardScoring ["receptions"] [("receptions", some 8)] =
      some (specWeightedSum standardScoring ["receptions"] [("receptions", some 8)]) :=
  ⟨by decide, fantasyPoints_eq_weighted_sum standardScoring _ _ (by decide)⟩

/-- C3 counterexample: with the `passing_yards` column present but its cell
null, the row's `fantasy_points` is null — the missing value null-propagates
into the total, contrary to the claim that missing category values never
null-propagate. -/
theorem fantasyPoints_null_propagates_cex :
    fantasyPoints standardScoring ["passing_yards"] [("passing_yards", none)] = none := by
  simp [fantasyPoints, useSiteDefaults, categoryFp, cell, optAdd, getWeight, List.lookup]

lemma getWeight_standard_eq_default (cd : String × ℚ) (hcd : cd ∈ useSiteDefaults) :
    getWeight standardScoring cd.1 cd.2 = cd.2 := by
  fin_cases hcd <;> rfl

/-- C10: constructing the scoring engine with an empty weight map (what
`FantasyPredictor.__init__` passes when the configuration has no `scoring`
section) yields exactly the same `fantasy_points` as the default standard
map, for every input schema and row: each per-category lookup falls back to
the standard default when the key is absent. -/
theorem emptyScoring_eq_standardScoring (cols : List String) (row : Row) :
    fantasyPoints [] cols row = fantasyPoints standardScoring cols row := by
  unfold fantasyPoints
  have hmap : useSiteDefaults.map (fun cd => categoryFp [] cols row cd.1 cd.2) =
      useSiteDefaults.map (fun cd => categoryFp standardScoring cols row cd.1 cd.2) :=
    List.map_congr_left (fun cd hcd => by
      unfold categoryFp
      rw [show getWeight [] cd.1 cd.2 = cd.2 from rfl, getWeight_standard_eq_default cd hcd])
  rw [hmap]

/-! ## Theorems: seasonal aggregator -/

lemma list_sum_const {c : ℚ} {xs : List ℚ} (h : ∀ x ∈ xs, x = c) :
    xs.sum = xs.length * c := by
  induction xs with
  | nil => simp
  | cons a l ih =>
    have ha : a = c := h a (List.mem_cons_self _ _)
    have hl := ih (fun x hx => h x (List.mem_cons_of_mem _ hx))
    simp only [List.sum_cons, List.length_cons, ha, hl]
    push_cast
    ring

lemma sampleVariance_const {c : ℚ} {xs : List ℚ} (h2 : 2 ≤ xs.length)
    (h : ∀ x ∈ xs, x = c) : sampleVariance xs = some 0 := by
  have hlen : ¬ xs.length < 2 := not_lt.mpr h2
  have h0 : (xs.length : ℚ) ≠ 0 := by
    have : 0 < xs.length := lt_of_lt_of_le (by norm_num) h2
    exact_mod_cast this.ne.symm
  have hmean : listMean xs = c := by
    rw [listMean, list_sum_const h]
    field_simp
  have hmap : xs.map (fun x => (x - listMean xs) ^ 2) = xs.map (fun _ => (0 : ℚ)) :=
    List.map_congr_left (fun x hx => by rw [hmean, h x hx]; ring)
  rw [sampleVariance, if_neg hlen, hmap]
  simp

/-- C6: `consistency_score` equals `1 / (fp_std + 1)` when the standard
deviation is defined (non-null, non-NaN) and `0.5` otherwise — in particular
for every group of fewer than 2 rows, whose variance (hence `fp_std`) is
null; it always lies in `(0, 1]`, is strictly decreasing in `fp_std`, and
equals exactly `1` for every group of at least 2 identical values. -/
theorem consistencyScore_invariants (xs : List ℚ) (σ : ℚ) :
    (xs.length < 2 → sampleVariance xs = none) ∧
    consistencyScore none = 1/2 ∧
    (0 < consistencyScore none ∧ consistencyScore none ≤ 1) ∧
    (isFpStdOf xs σ →
      consistencyScore (some σ) = 1 / (σ + 1) ∧
      0 < consistencyScore (some σ) ∧ consistencyScore (some σ) ≤ 1) ∧
    (∀ c, 2 ≤ xs.length → (∀ x ∈ xs, x = c) → isFpStdOf xs σ →
      σ = 0 ∧ consistencyScore (some σ) = 1) ∧
    (∀ s t : ℚ, 0 ≤ s → s < t →
      consistencyScore (some t) < consistencyScore (some s)) := by
  refine ⟨?_, rfl, ?_, ?_, ?_, ?_⟩
  · intro h
    simp [sampleVariance, h]
  · norm_num [consistencyScore]
  · rintro ⟨hσ, -⟩
    have hpos : 0 < σ + 1 := by linarith
    refine ⟨rfl, ?_, ?_⟩
    · simp only [consistencyScore]
      positivity
    · simp only [consistencyScore]
      rw [div_le_one hpos]
      linarith
  · rintro c h2 hc ⟨hσ, hvar⟩
    have h0 : sampleVariance xs = some 0 := sampleVariance_const h2 hc
    rw [h0] at hvar
    have hsq : σ ^ 2 = 0 := (Option.some.injEq _ _ ▸ hvar).symm
    have hσ0 : σ = 0 := by
      exact pow_eq_zero_iff (two_ne_zero) |>.mp hsq
    subst hσ0
    norm_num [consistencyScore]
  · intro s t hs hst
    simp only [consistencyScore]
    exact one_div_lt_one_div_of_lt (by linarith) (by linarith)

theorem consistencyScore_invariants_witness :
    (0 : ℚ) = 0 ∧ consistencyScore (some 0) = 1 :=
  (consistencyScore_invariants [3, 3] 0).2.2.2.2.1 3 (by norm_num)
    (by intro x hx; fin_cases hx <;> rfl)
    ⟨le_refl 0, by norm_num [sampleVariance, listMean]⟩

/-! ## Theorems: trend estimator -/

lemma insertBySeason_length (r : SeasonRow) (l : List SeasonRow) :
    (insertBySeason r l).length = l.length + 1 := by
  induction l with
  | nil => rfl
  | cons x xs ih =>
    by_cases h : r.season < x.season
    · simp [insertBySeason, h]
    · simp [insertBySeason, h, ih]

lemma sortBySeason_length (l : List SeasonRow) :
    (sortBySeason l).length = l.length := by
  induction l with
  | nil => rfl
  | cons x xs ih => simp [sortBySeason, insertBySeason_length, ih]

lemma trendValidPairs_length_le (df : List SeasonRow) (pid : String) :
    (trendValidPairs df pid).length ≤ (playerRows df pid).length := by
  calc (trendValidPairs df pid).length
      ≤ (sortBySeason (playerRows df pid)).length := List.length_filterMap_le _ _
    _ = (playerRows df pid).length := sortBySeason_length _

/-- The three-season example of the specification: seasons 2020, 2021, 2022
with average FP per game 10.0, 12.0, 14.0. -/
def trendExampleDf : List SeasonRow :=
  [⟨"P1", "Player One", 2020, "RB", some 10, none⟩,
   ⟨"P1", "Player One", 2021, "RB", some 12, none⟩,
   ⟨"P1", "Player One", 2022, "RB", some 14, none⟩]

/-- C7: `calculate_trend` returns the closed-form ordinary-least-squares
slope `(n Σxy - Σx Σy) / (n Σx² - (Σx)²)` of the player's valid
`(season, avg_fp)` pairs (nulls discarded); it returns exactly `0` whenever
fewer than 2 valid pairs remain or the denominator is exactly zero; and on
the points `(2020, 10), (2021, 12), (2022, 14)` it returns slope `2`. -/
theorem calculateTrend_spec :
    calculateTrend trendExampleDf "P1" = 2 ∧
    (∀ (df : List SeasonRow) (pid : String),
      (trendValidPairs df pid).length < 2 → calculateTrend df pid = 0) ∧
    (∀ (df : List SeasonRow) (pid : String),
      olsDenom (trendValidPairs df pid) = 0 → calculateTrend df pid = 0) ∧
    (∀ (df : List SeasonRow) (pid : String),
      2 ≤ (trendValidPairs df pid).length → olsDenom (trendValidPairs df pid) ≠ 0 →
      calculateTrend df pid = olsSlope (trendValidPairs df pid)) := by
  refine ⟨?_, ?_, ?_, ?_⟩
  · have h1 : playerRows trendExampleDf "P1" = trendExampleDf := by
      simp [playerRows, trendExampleDf, List.filter_cons]
    have h2 : trendValidPairs trendExampleDf "P1" = [(2020, 10), (2021, 12), (2022, 14)] := by
      simp [trendValidPairs, h1, trendExampleDf, sortBySeason, insertBySeason,
        List.filterMap_cons]
    have h3 : ¬ (playerRows trendExampleDf "P1").length < 2 := by
      rw [h1]; norm_num [trendExampleDf]
    unfold calculateTrend
    rw [if_neg h3, h2]
    norm_num [olsSlope, olsDenom]
  · intro df pid hlt
    unfold calculateTrend
    by_cases hp : (playerRows df pid).length < 2
    · rw [if_pos hp]
    · rw [if_neg hp]
      simp only [if_pos hlt]
  · intro df pid hden
    unfold calculateTrend
    by_cases hp : (playerRows df pid).length < 2
    · rw [if_pos hp]
    · rw [if_neg hp]
      by_cases hv : (trendValidPairs df pid).length < 2
      · simp only [if_pos hv]
      · simp only [if_neg hv, if_pos hden]
  · intro df pid hv hden
    have hp : ¬ (playerRows df pid).length < 2 :=
      not_lt.mpr (le_trans hv (trendValidPairs_length_le df pid))
    unfold calculateTrend
    rw [if_neg hp, if_neg (not_lt.mpr hv), if_neg hden]

/-- Degenerate input for the trend estimator: two rows with the same season
value, so that the closed-form denominator is exactly zero. -/
def trendDegenerateDf : List SeasonRow :=
  [⟨"P2", "Player Two", 2020, "RB", some 10, none⟩,
   ⟨"P2", "Player Two", 2020, "RB", some 12, none⟩]

theorem calculateTrend_spec_witness :
    calculateTrend ([] : List SeasonRow) "P0" = 0 ∧
    calculateTrend trendDegenerateDf "P2" = 0 :=
  ⟨calculateTrend_spec.2.1 [] "P0"
      (by simp [trendValidPairs, playerRows, sortBySeason]),
   calculateTrend_spec.2.2.1 trendDegenerateDf "P2"
      (by norm_num [trendValidPairs, playerRows, trendDegenerateDf, sortBySeason,
        insertBySeason, List.filterMap_cons, List.filter_cons, olsDenom])⟩

/-! ## Theorems: season predictor -/

/-- The lookback window of `predict_player_2026` for one player: the
player's seasonal rows passed through the `season >= target_season - 3`
filter. -/
def lookbackRows (cfg : PredictorConfig) (df : List SeasonRow) (pid : String) :
    List SeasonRow :=
  recentRows cfg.targetSeason (playerRows df pid)

lemma predictPlayer_eq_none_iff (cfg : PredictorConfig) (df : List SeasonRow) (pid : String) :
    predictPlayer cfg df pid = none ↔
      playerRows df pid = [] ∨ lookbackRows cfg df pid = [] ∨
        validAvgPairs (lookbackRows cfg df pid) = [] := by
  unfold predictPlayer lookbackRows
  cases h : playerRows df pid with
  | nil => simp
  | cons f r =>
    by_cases h1 : (recentRows cfg.targetSeason (f :: r)).isEmpty
    · simp [h1, List.isEmpty_iff.mp h1]
    · by_cases h2 : (validAvgPairs (recentRows cfg.targetSeason (f :: r))).isEmpty
      · simp [h1, h2, List.isEmpty_iff.mp h2, List.isEmpty_iff]
      · have h1' : recentRows cfg.targetSeason (f :: r) ≠ [] := by
          simpa [List.isEmpty_iff] using h1
        have h2' : validAvgPairs (recentRows cfg.targetSeason (f :: r)) ≠ [] := by
          simpa [List.isEmpty_iff] using h2
        simp [h1, h2, h1', h2']

/-- C1 (evaluating the code at the failing input): with two valid entries in
season-ascending order, the reversed weight list `[1.3, 1.0]` pairs the
largest raw weight `1.0 + 0.3·1 = 1.3` with the FIRST (oldest) entry and the
smallest weight `1.0` with the most recent entry, so for the ascending
entries `(2024, 10), (2025, 20)` the code computes
`weighted_avg = (10·1.3 + 20·1.0)/2.3 = 330/23 ≈ 14.35`, strictly below the
`(10·1.0 + 20·1.3)/2.3 = 360/23 ≈ 15.65` that weighting the most recent
season highest — what the claim and the code's own comment
`# Most recent gets highest weight` describe — would produce. -/
theorem recencyWeights_favor_oldest_cex :
    predictionWeights 2 = [13/10, 1] ∧
    (predictionWeights 2).head? = some (13/10) ∧
    (predictionWeights 2).getLast? = some 1 ∧
    weightedAvg [10, 20] = 330/23 ∧
    (10 * 1 + 20 * (13/10)) / (1 + 13/10) = (360 : ℚ)/23 ∧
    weightedAvg [10, 20] < 360/23 := by
  have hw : predictionWeights 2 = [13/10, 1] := by
    norm_num [predictionWeights, List.range_succ]
  have ha : weightedAvg [10, 20] = 330/23 := by
    norm_num [weightedAvg, predictionWeights, List.range_succ]
  refine ⟨hw, by rw [hw]; rfl, by rw [hw]; rfl, ha, by norm_num, by rw [ha]; norm_num⟩

/-- C2 (amended): the lookback filter selects exactly the player's seasonal
summaries with `season ≥ target_season - 3` — with no exclusion of the
target season itself, which is selected when present — and when no summary
qualifies the player yields no prediction (`None`, not an error). -/
theorem lookback_selects_recent (cfg : PredictorConfig) (df : List SeasonRow) (pid : String) :
    (∀ r : SeasonRow, r ∈ lookbackRows cfg df pid ↔
      r ∈ playerRows df pid ∧ cfg.targetSeason - 3 ≤ r.season) ∧
    (lookbackRows cfg df pid = [] → predictPlayer cfg df pid = none) := by
  constructor
  · intro r
    simp [lookbackRows, recentRows, List.mem_filter]
  · intro h
    rw [predictPlayer_eq_none_iff]
    exact Or.inr (Or.inl h)

/-- The configuration used by the concrete predictor scenarios: target
season 2026 with the defaulted weights. -/
def cfg2026 : PredictorConfig := ⟨2026, 3/10, 1/5, 2⟩

/-- A seasonal summary older than the 3-season lookback window. -/
def oldRow : SeasonRow := ⟨"P3", "Player Three", 2019, "WR", some 9, none⟩

theorem lookback_selects_recent_witness :
    predictPlayer cfg2026 [oldRow] "P3" = none :=
  (lookback_selects_recent cfg2026 [oldRow] "P3").2
    (by simp [lookbackRows, recentRows, playerRows, oldRow, cfg2026, List.filter_cons])

/-- A seasonal summary carrying the target season itself. -/
def targetSeasonRow : SeasonRow := ⟨"P1", "Player One", 2026, "RB", some 10, none⟩

/-- C2 counterexample: a seasonal summary whose season IS the target season
satisfies `season >= target_season - 3`, is selected by the lookback filter,
and produces a prediction — the code has no upper season bound, so the
target season is not excluded, contrary to the claim. -/
theorem lookback_includes_target_cex :
    targetSeasonRow.season = cfg2026.targetSeason ∧
    targetSeasonRow ∈ lookbackRows cfg2026 [targetSeasonRow] "P1" ∧
    predictPlayer cfg2026 [targetSeasonRow] "P1" ≠ none := by
  refine ⟨rfl, ?_, ?_⟩
  · simp [lookbackRows, recentRows, playerRows, targetSeasonRow, cfg2026, List.filter_cons]
  · rw [Ne, predictPlayer_eq_none_iff]
    push_neg
    refine ⟨?_, ?_, ?_⟩ <;>
      simp [lookbackRows, recentRows, playerRows, validAvgPairs, targetSeasonRow,
        cfg2026, List.filter_cons, List.filterMap_cons]

/-! ## Theorems: eligibility filtering -/

/-- C4 counterexample input: one player with game rows at two positions in
one and the same season, producing two seasonal summary rows for a single
distinct season. -/
def dualPositionGames : List GameRow :=
  [⟨"P1", "Player One", 2025, "QB", 10⟩, ⟨"P1", "Player One", 2025, "RB", 12⟩]

/-- C4 counterexample: with `min_seasons_played = 2`, a player with a single
distinct season but two seasonal rows (two positions in that season) is
eligible — the orchestrator counts seasonal rows per player, not distinct
seasons, contrary to the claim. -/
theorem eligibility_counts_rows_cex :
    eligibleFromGames dualPositionGames 2 = ["P1"] ∧
    distinctSeasonsByPlayer dualPositionGames "P1" = 1 := by
  decide

/-- C4 (amended): a player is eligible exactly when its count of seasonal
summary ROWS — one row per distinct `(player_id, player_name, season,
position)` — reaches `min_seasons_played`; the row count dominates the
distinct-season count and coincides with it whenever no player id carries
two different `(player_name, position)` combinations within one season. -/
theorem eligibility_by_row_count (df : List GameRow) (minSeasons : ℕ) (p : String) :
    (p ∈ eligibleFromGames df minSeasons ↔
      (∃ g ∈ df, g.playerId = p) ∧ minSeasons ≤ seasonalRowCountByPlayer df p) ∧
    distinctSeasonsByPlayer df p ≤ seasonalRowCountByPlayer df p ∧
    ((∀ g1 ∈ df, ∀ g2 ∈ df, g1.playerId = g2.playerId → g1.season = g2.season →
        g1.playerName = g2.playerName ∧ g1.position = g2.position) →
      seasonalRowCountByPlayer df p = distinctSeasonsByPlayer df p) := by
  refine ⟨?_, ?_, ?_⟩
  · simp [eligibleFromGames, seasonalKeys, List.mem_filter, List.mem_dedup,
      List.mem_map, rowKey]
  · unfold distinctSeasonsByPlayer seasonalRowCountByPlayer
    calc ((((seasonalKeys df).filter (fun k => k.1 == p)).map
            (fun k => k.2.2.1)).dedup).length
        ≤ (((seasonalKeys df).filter (fun k => k.1 == p)).map
            (fun k => k.2.2.1)).length := (List.dedup_sublist _).length_le
      _ = ((seasonalKeys df).filter (fun k => k.1 == p)).length := List.length_map _ _
  · intro huniq
    unfold seasonalRowCountByPlayer distinctSeasonsByPlayer
    have hnod : ((seasonalKeys df).filter (fun k => k.1 == p)).Nodup :=
      List.Nodup.filter _ (List.nodup_dedup _)
    have hmapnod : ((((seasonalKeys df).filter (fun k => k.1 == p)).map
        (fun k => k.2.2.1))).Nodup := by
      refine List.Nodup.map_on ?_ hnod
      intro k1 hk1 k2 hk2 hseason
      have hk1' := List.mem_filter.mp hk1
      have hk2' := List.mem_filter.mp hk2
      obtain ⟨g1, hg1, rfl⟩ := List.mem_map.mp (List.mem_dedup.mp hk1'.1)
      obtain ⟨g2, hg2, rfl⟩ := List.mem_map.mp (List.mem_dedup.mp hk2'.1)
      have e1 : g1.playerId = p := by simpa [rowKey] using hk1'.2
      have e2 : g2.playerId = p := by simpa [rowKey] using hk2'.2
      have hpid : g1.playerId = g2.playerId := by rw [e1, e2]
      have hsea : g1.season = g2.season := by simpa [rowKey] using hseason
      obtain ⟨hname, hpos⟩ := huniq g1 hg1 g2 hg2 hpid hsea
      simp [rowKey, hpid, hsea, hname, hpos]
    rw [List.dedup_eq_self.mpr hmapnod, List.length_map]

/-- Well-behaved eligibility input: one player, one summary row per
season. -/
def twoSeasonGames : List GameRow :=
  [⟨"P9", "Player Nine", 2024, "RB", 5⟩, ⟨"P9", "Player Nine", 2025, "RB", 7⟩]

theorem eligibility_by_row_count_witness :
    seasonalRowCountByPlayer twoSeasonGames "P9" =
      distinctSeasonsByPlayer twoSeasonGames "P9" :=
  (eligibility_by_row_count twoSeasonGames 2 "P9").2.2 (by decide)

/-! ## Theorems: orchestrator error handling and ordering -/

lemma collectPredictions_append (a b : List (Except String (Option Prediction))) :
    collectPredictions (a ++ b) = collectPredictions a ++ collectPredictions b := by
  induction a with
  | nil => rfl
  | cons x xs ih =>
    cases x with
    | error e => simpa [collectPredictions] using ih
    | ok o =>
      cases o with
      | none => simpa [collectPredictions] using ih
      | some p => simp [collectPredictions, ih]

/-- C8: the orchestrator raises its terminal `ValueError` exactly when zero
predictions survive the per-player processing; a per-player error is
swallowed locally (removing exactly that outcome, never aborting the batch),
and whenever at least one prediction is produced the run succeeds with the
sorted predictions. -/
theorem orchestrator_partial_failure (outcomes : List (Except String (Option Prediction))) :
    ((∃ e, predictAllPlayersResult outcomes = Except.error e) ↔
      collectPredictions outcomes = []) ∧
    (∀ (pre post : List (Except String (Option Prediction))) (msg : String),
      predictAllPlayersResult (pre ++ Except.error msg :: post) =
        predictAllPlayersResult (pre ++ post)) ∧
    (collectPredictions outcomes ≠ [] →
      predictAllPlayersResult outcomes =
        Except.ok (sortPredictions (collectPredictions outcomes))) := by
  refine ⟨⟨?_, ?_⟩, ?_, ?_⟩
  · rintro ⟨e, he⟩
    by_cases h : (collectPredictions outcomes).isEmpty
    · exact List.isEmpty_iff.mp h
    · simp [predictAllPlayersResult, h] at he
  · intro h
    exact ⟨"No predictions generated. Check data and filters.",
      by simp [predictAllPlayersResult, h]⟩
  · intro pre post msg
    have hc : collectPredictions (pre ++ Except.error msg :: post) =
        collectPredictions (pre ++ post) := by
      rw [collectPredictions_append, collectPredictions_append]
      rfl
    simp only [predictAllPlayersResult, hc]
  · intro h
    have h' : ¬ (collectPredictions outcomes).isEmpty = true := by
      simpa [List.isEmpty_iff] using h
    simp [predictAllPlayersResult, h']

/-- A concrete prediction record used by the orchestrator scenarios. -/
def stubPrediction : Prediction :=
  ⟨"P1", "Player One", "RB", 10, 170, 10, 0, 1/2, 1, 2025⟩

theorem orchestrator_partial_failure_witness :
    predictAllPlayersResult [Except.ok (some stubPrediction)] =
      Except.ok (sortPredictions (collectPredictions [Except.ok (some stubPrediction)])) :=
  (orchestrator_partial_failure [Except.ok (some stubPrediction)]).2.2
    (by simp [collectPredictions])

lemma insertByFpDesc_perm (p : Prediction) (l : List Prediction) :
    (insertByFpDesc p l).Perm (p :: l) := by
  induction l with
  | nil => exact List.Perm.refl _
  | cons q qs ih =>
    by_cases h : q.predictedSeasonFp < p.predictedSeasonFp
    · simp only [insertByFpDesc, if_pos h]
      exact List.Perm.refl _
    · simp only [insertByFpDesc, if_neg h]
      exact (ih.cons q).trans (List.Perm.swap p q qs)

lemma sortPredictions_perm (l : List Prediction) : (sortPredictions l).Perm l := by
  induction l with
  | nil => exact List.Perm.refl _
  | cons p ps ih => exact (insertByFpDesc_perm p (sortPredictions ps)).trans (ih.cons p)

lemma sorted_insertByFpDesc {p : Prediction} {l : List Prediction}
    (h : sortedByFpDesc l) : sortedByFpDesc (insertByFpDesc p l) := by
  induction l with
  | nil =>
    simp [insertByFpDesc, sortedByFpDesc]
  | cons q qs ih =>
    rcases List.pairwise_cons.mp h with ⟨hq, hqs⟩
    by_cases hlt : q.predictedSeasonFp < p.predictedSeasonFp
    · simp only [insertByFpDesc, if_pos hlt]
      refine List.Pairwise.cons ?_ h
      intro b hb
      rcases List.mem_cons.mp hb with rfl | hb
      · exact hlt.le
      · exact (hq b hb).trans hlt.le
    · simp only [insertByFpDesc, if_neg hlt]
      refine List.Pairwise.cons ?_ (ih hqs)
      intro b hb
      rcases List.mem_cons.mp ((insertByFpDesc_perm p qs).mem_iff.mp hb) with rfl | hb
      · exact not_lt.mp hlt
      · exact hq b hb

lemma sortPredictions_sorted (l : List Prediction) : sortedByFpDesc (sortPredictions l) := by
  induction l with
  | nil => exact List.Pairwise.nil
  | cons p ps ih => exact sorted_insertByFpDesc ih

/-- C9 (amended): every successful orchestrator run returns a permutation of
the collected predictions that is sorted by `predicted_season_fp` in
descending order — the contract polars gives the `sort` call; the relative
order of rows with equal keys is NOT part of that contract, since the call
leaves `maintain_order` at its default `False`. -/
theorem orchestrator_output_sorted (outcomes : List (Except String (Option Prediction)))
    (l : List Prediction) (h : predictAllPlayersResult outcomes = Except.ok l) :
    polarsSortDesc (collectPredictions outcomes) l := by
  unfold predictAllPlayersResult at h
  by_cases he : (collectPredictions outcomes).isEmpty
  · simp [he] at h
  · simp only [he, Bool.false_eq_true, if_false, Except.ok.injEq] at h
    subst h
    exact ⟨sortPredictions_perm _, sortPredictions_sorted _⟩

theorem orchestrator_output_sorted_witness :
    polarsSortDesc (collectPredictions [Except.ok (some stubPrediction)])
      [stubPrediction] :=
  orchestrator_output_sorted [Except.ok (some stubPrediction)] [stubPrediction]
    (by simp [predictAllPlayersResult, collectPredictions, sortPredictions, insertByFpDesc])

/-- First of two predictions tied on `predicted_season_fp`. -/
def tiedA : Prediction := ⟨"A", "Player A", "RB", 10, 100, 10, 0, 1/2, 1, 2025⟩

/-- Second of two predictions tied on `predicted_season_fp`. -/
def tiedB : Prediction := ⟨"B", "Player B", "WR", 10, 100, 10, 0, 1/2, 1, 2025⟩

/-- C9 counterexample: for the input `[tiedA, tiedB]` with equal
`predicted_season_fp`, the output `[tiedB, tiedA]` satisfies everything the
code's sort call guarantees (a descending-sorted permutation, with
`maintain_order` left `False`) yet swaps the tied rows — so "equal rows
retain their relative pre-sort order" is not a property of the code. -/
theorem sort_ties_not_guaranteed_cex :
    polarsSortDesc [tiedA, tiedB] [tiedB, tiedA] ∧
    ¬ tiesPreserved [tiedA, tiedB] [tiedB, tiedA] := by
  constructor
  · refine ⟨List.Perm.swap tiedA tiedB [], ?_⟩
    simp [sortedByFpDesc, tiedA, tiedB]
  · intro hties
    have h := hties 100
    simp [tiedA, tiedB] at h

/-! ## Theorems: persistence format dispatch -/

/-- C5 counterexample: for the unsupported format string `"yaml"`,
`save_predictions` raises nothing — its if/elif/else chain has a catch-all
`else` branch — and writes a JSON-serialised file named
`predictions_2026.yaml`.  (`savePredictions` is total: the translated
control flow has no error outcome at all, so no format can raise before
I/O.) -/
theorem save_unknown_format_writes_json_cex :
    savePredictions "yaml" = ("predictions_2026.yaml", SaveAction.writeJson) := by
  rfl

/-- C5 (amended): every output format other than `parquet` and `csv` —
including every unsupported format string — selects the JSON writer and
writes a file named with the requested extension; no error is raised and
the write is always attempted. -/
theorem save_format_dispatch (fmt : String) (h1 : fmt ≠ "parquet") (h2 : fmt ≠ "csv") :
    savePredictions fmt = ("predictions_2026." ++ fmt, SaveAction.writeJson) := by
  simp [savePredictions, beq_eq_false_iff_ne.mpr h1, beq_eq_false_iff_ne.mpr h2]

theorem save_format_dispatch_witness :
    savePredictions "xml" = ("predictions_2026." ++ "xml", SaveAction.writeJson) :=
  save_format_dispatch "xml" (by decide) (by decide)

end FantasyFootball
